import Mathlib

/-!
Shallow embedding of the personalized-email-campaign core:
campaign condition matching (`matchesConditions`), the tracking
instrumentor (`addTracking`), the composer/scheduler (`scheduleEmailSvc`),
the delivery worker (`processScheduledEmails`), the tracking collector
services (`trackEmailOpenSvc`, `trackEmailClickSvc`), the event matcher
(`processEvent`) and the tracking HTTP controllers.  Each definition is
translated from the corresponding JavaScript in the repository
(src/models/campaign.model.js, src/models/event.model.js,
src/services/campaign.service.js, src/services/email.service.js,
src/controllers/template.controller.js).
-/

namespace EmailCampaign

/-- Model of a JavaScript value as it occurs in event documents and
condition trees: null, booleans, numbers (restricted to integers — no
claim in scope involves fractional values), strings, and objects as
association lists.  Object identity is not modelled; `jsStrictEq` treats
any two object values as distinct references (JS `===` on two separately
constructed objects is false). -/
inductive JValue where
  | jnull : JValue
  | jbool : Bool → JValue
  | jnum : Int → JValue
  | jstr : String → JValue
  | jobj : List (String × JValue) → JValue

/-- JavaScript truthiness of a value: `null`, `false`, `0` and `""` are
falsy; every object is truthy. -/
def truthy : JValue → Bool
  | .jnull => false
  | .jbool b => b
  | .jnum n => n != 0
  | .jstr s => s != ""
  | .jobj _ => true

/-- Property lookup `v[part]`: defined on objects; property access on a
primitive yields `undefined` for the keys used in condition paths. -/
def getField : JValue → String → Option JValue
  | .jobj fs, key => (fs.find? (fun p => p.1 = key)).map (fun p => p.2)
  | _, _ => none

/-- Splits a dot-separated key path, as `key.split('.')` does. -/
def splitPathAux : List Char → List Char → List String
  | [], acc => [String.mk acc.reverse]
  | c :: rest, acc =>
      if c = '.' then String.mk acc.reverse :: splitPathAux rest []
      else splitPathAux rest (c :: acc)

/-- Dot-splitting entry point over a `String` key. -/
def splitPath (key : String) : List String := splitPathAux key.data []

/-- The path-descent loop of `campaignSchema.methods.matchesConditions`:
at each step the code runs `if (!eventValue || !eventValue[part]) return
false; eventValue = eventValue[part];`, so a falsy current value, a
missing property, or a falsy property value all abort the descent. -/
def resolveKeyPath : JValue → List String → Option JValue
  | v, [] => some v
  | v, part :: rest =>
      if truthy v = false then none
      else
        match getField v part with
        | none => none
        | some w => if truthy w = false then none else resolveKeyPath w rest

/-- Plain structural path resolution with no truthiness filtering.  This
definition follows the spec's wording ("a dot-separated key path …
resolves in the event") and is used only to state claims about what the
source-translated `resolveKeyPath` does on resolvable paths. -/
def resolveKeyPathLoose : JValue → List String → Option JValue
  | v, [] => some v
  | v, part :: rest =>
      match getField v part with
      | none => none
      | some w => resolveKeyPathLoose w rest

/-- One entry of a campaign's `conditions` map: either a primitive
literal (the `typeof value !== 'object'` branch, compared with `!==`) or
an operator object with optional `exists` / `equals` / `gt` / `lt`
fields. -/
inductive CondSpec where
  | lit : JValue → CondSpec
  | op : Option Bool → Option JValue → Option Int → Option Int → CondSpec

/-- JavaScript strict equality restricted to the values in scope:
structural on primitives; two object values are treated as distinct
references. -/
def jsStrictEq : JValue → JValue → Bool
  | .jnull, .jnull => true
  | .jbool a, .jbool b => a == b
  | .jnum a, .jnum b => a == b
  | .jstr a, .jstr b => a == b
  | _, _ => false

/-- Parses a non-negative decimal string the way `Number(s)` does on the
inputs in scope; `""` coerces to `0`; a non-numeric string is NaN
(`none`). -/
def parseDecimal : List Char → Option Int
  | [] => none
  | cs => if cs.all (fun c => c.isDigit)
      then some (cs.foldl (fun acc c => acc * 10 + (Int.ofNat (c.toNat - 48))) 0)
      else none

/-- JavaScript numeric coercion (`ToNumber`) for the relational operators,
with `none` standing for NaN. -/
def toNumberJs : JValue → Option Int
  | .jnull => some 0
  | .jbool b => some (if b then 1 else 0)
  | .jnum n => some n
  | .jstr s => if s = "" then some 0 else parseDecimal s.data
  | .jobj _ => none

/-- JavaScript `v <= n` for the `gt` operator; any NaN comparison is
false. -/
def jsLE (v : JValue) (n : Int) : Bool :=
  match toNumberJs v with
  | some m => m ≤ n
  | none => false

/-- JavaScript `v >= n` for the `lt` operator; any NaN comparison is
false. -/
def jsGE (v : JValue) (n : Int) : Bool :=
  match toNumberJs v with
  | some m => m ≥ n
  | none => false

/-- Evaluation of one `conditions` entry against the event document,
translated from the body of the `for (const [key, value] of
Object.entries(this.conditions))` loop: the dotted path is descended
first (any failure yields a non-match), then the operator object's
checks run in order `exists`, `equals`, `gt`, `lt`, or a plain strict
equality for a primitive literal. -/
def evalCondEntry (event : JValue) (key : String) (cond : CondSpec) : Bool :=
  match resolveKeyPath event (splitPath key) with
  | none => false
  | some ev =>
      match cond with
      | .op ex eqv gt lt =>
          (match ex with | none => true | some b => truthy ev == b) &&
          (match eqv with | none => true | some x => jsStrictEq ev x) &&
          (match gt with | none => true | some g => !(jsLE ev g)) &&
          (match lt with | none => true | some l => !(jsGE ev l))
      | .lit x => jsStrictEq ev x

/-- Translation of `campaignSchema.methods.matchesConditions`: an empty
condition set matches; otherwise every entry must hold. -/
def matchesConditions (conds : List (String × CondSpec)) (event : JValue) : Bool :=
  conds.all (fun kc => evalCondEntry event kc.1 kc.2)

/-- Email (Delivery) status enum from `emailSchema` in
src/models/email.model.js. -/
inductive EStatus where
  | scheduled | sending | sent | delivered | opened | clicked
  | bounced | rejected | failed | complained | unsubscribed
deriving DecidableEq, Repr

/-- One entry of the `links` array on an email document. -/
structure LinkEntry where
  original : String
  tracking : String
  clicks : Nat := 0
  lastClickedAt : Option Nat := none
deriving DecidableEq, Repr

/-- The email (Delivery) document, with the fields the claims exercise.
The `variables` map and audit fields (`ipAddress`, `userAgent`,
`metadata`) play no role in any claim and are omitted.  Times are
modelled as natural-number milliseconds. -/
structure EmailDoc where
  id : Nat := 0
  userId : String := ""
  campaignId : String := ""
  eventId : String := ""
  body : String := ""
  isHtml : Bool := false
  templateId : String := ""
  status : EStatus := .scheduled
  scheduledFor : Nat := 0
  sentAt : Option Nat := none
  deliveredAt : Option Nat := none
  openedAt : Option Nat := none
  clickedAt : Option Nat := none
  messageId : Option String := none
  trackingId : Option String := none
  links : List LinkEntry := []
  errorMessage : Option String := none
deriving DecidableEq, Repr

/-- Campaign analytics counters (the `unsubscribed` and `complained`
counters are never touched by the code in scope). -/
structure Analytics where
  sent : Nat := 0
  opened : Nat := 0
  clicked : Nat := 0
  bounced : Nat := 0
deriving DecidableEq, Repr

/-- Campaign status enum from `campaignSchema`. -/
inductive CampStatus where
  | draft | active | paused | completed | archived
deriving DecidableEq, Repr

/-- The campaign document with the fields used by the matcher, the
scheduler and the analytics updates. -/
structure CampaignDoc where
  id : String
  templateId : String := ""
  triggerEvent : String := ""
  delay : Nat := 0
  conditions : List (String × CondSpec) := []
  audience : List String := []
  excludedAudience : List String := []
  startDate : Nat := 0
  endDate : Option Nat := none
  status : CampStatus := .draft
  analytics : Analytics := {}

/-- The template document fields consumed by the scheduler. -/
structure TemplateDoc where
  id : String
  subject : String := ""
  body : String := ""
  isHtml : Bool := false
deriving DecidableEq, Repr

/-- Status of an `Event.triggeredCampaigns` entry. -/
inductive TrigStatus where
  | scheduled | sent | failed
deriving DecidableEq, Repr

/-- One `Event.triggeredCampaigns` entry as pushed by
`eventSchema.methods.addTriggeredCampaign`. -/
structure TriggeredEntry where
  campaignId : String
  processedAt : Nat
  status : TrigStatus
  scheduledFor : Nat
deriving DecidableEq, Repr

/-- The event document fields used by the matcher. -/
structure EventDoc where
  id : String
  userId : String := ""
  eventType : String := ""
  timestamp : Nat := 0
  metadata : JValue := .jobj []
  processed : Bool := false
  triggeredCampaigns : List TriggeredEntry := []

/-- The persistent store as visible to the modelled operations.  Users
are reduced to their ids — the only user data the claims depend on is
existence.  Atomic `$inc` updates are modelled as read-modify-write on
this sequentially accessed store. -/
structure Db where
  emails : List EmailDoc := []
  campaigns : List CampaignDoc := []
  templates : List TemplateDoc := []
  users : List String := []

/-- Re-save of a (mutated) email document instance, replacing the stored
document with the same id. -/
def saveEmail (st : Db) (e : EmailDoc) : Db :=
  { st with emails := st.emails.map (fun x => if x.id = e.id then e else x) }

/-- Insertion of a freshly created email document (`email.save()` on a
new document). -/
def insertEmail (st : Db) (e : EmailDoc) : Db :=
  { st with emails := st.emails ++ [e] }

/-- Targeted update of one campaign's analytics, as performed by
`Campaign.findByIdAndUpdate(id, { $inc: ... })`. -/
def bumpCampaign (st : Db) (cid : String) (f : Analytics → Analytics) : Db :=
  { st with campaigns := st.campaigns.map (fun c =>
      if c.id = cid then { c with analytics := f c.analytics } else c) }

/-- Projection used by the theorems: the `opened` counter of a campaign. -/
def campaignOpened (st : Db) (cid : String) : Nat :=
  ((st.campaigns.find? (fun c => c.id = cid)).map (fun c => c.analytics.opened)).getD 0

/-- Projection used by the theorems: the `clicked` counter of a campaign. -/
def campaignClicked (st : Db) (cid : String) : Nat :=
  ((st.campaigns.find? (fun c => c.id = cid)).map (fun c => c.analytics.clicked)).getD 0

/-- Projection used by the theorems: the `sent` counter of a campaign. -/
def campaignSent (st : Db) (cid : String) : Nat :=
  ((st.campaigns.find? (fun c => c.id = cid)).map (fun c => c.analytics.sent)).getD 0

/-- ASCII whitespace recognized by the regex class `\s` on the inputs in
scope. -/
def jsIsSpace (c : Char) : Bool :=
  c = ' ' || c = '\t' || c = '\n' || c = '\r' || c = '\x0b' || c = '\x0c'

/-- Recognizer for the two quote characters in the regex class `["']`. -/
def isQuoteChar (c : Char) : Bool := c = '"' || c = '\''

/-- Lazy capture `(.*?)\1`: collect characters up to the first occurrence
of the opening quote `q`, returning the capture and the remainder after
the closing quote.  `.` does not cross a line terminator, and an
unterminated quote fails the match. -/
def takeUntilQuote (q : Char) : List Char → Option (List Char × List Char)
  | [] => none
  | c :: cs =>
      if c = q then some ([], cs)
      else if c = '\n' || c = '\r' then none
      else
        match takeUntilQuote q cs with
        | some (u, r) => some (c :: u, r)
        | none => none

/-- Scan inside an anchor tag for the lazily-nearest `href=["']` whose
preceding character is whitespace, crossing only non-`>` characters —
the `(?:[^>]*?\s+)?href=(["'])(.*?)\1` tail of the link regex.
`prevWs` records whether the previously consumed character was
whitespace. -/
def scanToHref : Bool → List Char → Option (List Char × List Char)
  | prevWs, 'h' :: 'r' :: 'e' :: 'f' :: '=' :: q :: rest =>
      if prevWs && isQuoteChar q then
        match takeUntilQuote q rest with
        | some (url, after) => some (url, after)
        | none => none
      else scanToHref false ('r' :: 'e' :: 'f' :: '=' :: q :: rest)
  | _, [] => none
  | _, c :: rest => if c = '>' then none else scanToHref (jsIsSpace c) rest

/-- Attempt to match the link regex
`<a\s+(?:[^>]*?\s+)?href=(["'])(.*?)\1` at the head of the input,
returning the captured href value and the remainder after the closing
quote. -/
def matchAnchorHref : List Char → Option (List Char × List Char)
  | '<' :: 'a' :: c :: rest =>
      if jsIsSpace c then scanToHref true rest else none
  | _ => none

/-- The `while ((match = linkRegex.exec(html)) !== null)` scan: find each
successive match, continuing after its end; on a non-match advance one
character.  `fuel` bounds the recursion by the input length (every step
consumes at least one character). -/
def extractAnchorUrlsAux : Nat → List Char → List String
  | 0, _ => []
  | _, [] => []
  | fuel + 1, c :: rest =>
      match matchAnchorHref (c :: rest) with
      | some (url, after) => String.mk url :: extractAnchorUrlsAux fuel after
      | none => extractAnchorUrlsAux fuel rest

/-- All href captures of the link regex over the html, in document
order. -/
def extractAnchorUrls (html : String) : List String :=
  extractAnchorUrlsAux html.data.length html.data

/-- Whether a list starts with the given pattern. -/
def startsWithChars : List Char → List Char → Bool
  | [], _ => true
  | _ :: _, [] => false
  | p :: ps, c :: cs => p = c && startsWithChars ps cs

/-- Whether the pattern occurs anywhere in the text (used by the
theorems to speak about the persisted body). -/
def containsChars : List Char → List Char → Bool
  | [], _ => false
  | c :: cs, pat => startsWithChars pat (c :: cs) || containsChars cs pat

/-- JavaScript `String.prototype.replace` with a plain-string pattern:
replaces only the first occurrence, and leaves the string unchanged when
the pattern does not occur. -/
def replaceFirst : List Char → List Char → List Char → List Char
  | [], _, _ => []
  | c :: cs, pat, repl =>
      if startsWithChars pat (c :: cs) then repl ++ (c :: cs).drop pat.length
      else c :: replaceFirst cs pat repl

/-- The open-tracking pixel appended by `addTracking`. -/
def trackingPixel (trackingBaseUrl trackingId : String) : String :=
  "<img src=\"" ++ trackingBaseUrl ++ "/track/open/" ++ trackingId ++
    "\" width=\"1\" height=\"1\" alt=\"\" style=\"display:none;\" />"

/-- The guard `originalUrl && !originalUrl.startsWith('#') &&
!originalUrl.startsWith('mailto:')`. -/
def qualifiesForTracking (url : String) : Bool :=
  url != "" && !(startsWithChars "#".data url.data) &&
    !(startsWithChars "mailto:".data url.data)

/-- Result of the instrumentor: instrumented html plus the link registry. -/
structure TrackedHtml where
  html : String
  links : List LinkEntry
deriving DecidableEq, Repr

/-- The body of the extraction loop of `addTracking`: for each captured
href in order, if it qualifies, build the redirect URL from the current
index, append a registry entry, and replace the first occurrence of
`href="URL"` in the accumulated html (double-quoted form, exactly as the
code interpolates it); non-qualifying hrefs advance past without
consuming an index. -/
def addTrackingLoop (trackingBaseUrl trackingId : String) :
    List String → Nat → List Char → List LinkEntry → List Char × List LinkEntry
  | [], _, html, links => (html, links)
  | url :: rest, index, html, links =>
      if qualifiesForTracking url then
        let trackingUrl :=
          trackingBaseUrl ++ "/track/click/" ++ trackingId ++ "/" ++ toString index
        let html2 := replaceFirst html ("href=\"" ++ url ++ "\"").data
          ("href=\"" ++ trackingUrl ++ "\"").data
        addTrackingLoop trackingBaseUrl trackingId rest (index + 1) html2
          (links ++ [{ original := url, tracking := trackingUrl }])
      else addTrackingLoop trackingBaseUrl trackingId rest index html links

/-- Translation of `addTracking` in src/services/email.service.js: append
the open pixel, extract the links from the ORIGINAL html, and rewrite
them one by one in the pixel-augmented html. -/
def addTracking (html trackingId trackingBaseUrl : String) : TrackedHtml :=
  let trackedHtml := html ++ trackingPixel trackingBaseUrl trackingId
  let urls := extractAnchorUrls html
  let r := addTrackingLoop trackingBaseUrl trackingId urls 0 trackedHtml.data []
  { html := String.mk r.1, links := r.2 }

/-- Translation of `emailSchema.methods.updateStatus`: set the status
and stamp the matching timestamp from the current clock (the
`additionalData` extras are applied at the call sites that use them). -/
def updateStatusDoc (e : EmailDoc) (s : EStatus) (now : Nat) : EmailDoc :=
  let e2 := { e with status := s }
  match s with
  | .sent => { e2 with sentAt := some now }
  | .delivered => { e2 with deliveredAt := some now }
  | .opened => { e2 with openedAt := some now }
  | .clicked => { e2 with clickedAt := some now }
  | _ => e2

/-- Translation of `emailSchema.methods.trackClick`: when the indexed
link exists, bump its click count, stamp `lastClickedAt`, and run
`updateStatus('clicked')` on the same document; otherwise the document
is untouched. -/
def trackClickDoc (e : EmailDoc) (linkIndex : Nat) (now : Nat) : EmailDoc :=
  match e.links.get? linkIndex with
  | some l =>
      let links2 := e.links.set linkIndex
        { l with clicks := l.clicks + 1, lastClickedAt := some now }
      updateStatusDoc { e with links := links2 } .clicked now
  | none => e

/-- Translation of the `emailSchema.pre('save')` hook: a missing
trackingId is filled with a freshly generated identifier
(`mongoose.Types.ObjectId().toString() + Date.now().toString(36)`),
supplied here as the `genId` argument. -/
def presaveTrackingHook (e : EmailDoc) (genId : String) : EmailDoc :=
  if e.trackingId = none then { e with trackingId := some genId } else e

/-- The `Email.findOne({ trackingId })` lookup used by both collector
services. -/
def findEmailByTrackingId (emails : List EmailDoc) (tid : String) : Option EmailDoc :=
  emails.find? (fun e => e.trackingId = some tid)

/-- Translation of `trackEmailOpen` in src/services/campaign.service.js:
look the delivery up by trackingId; when found and not already `opened`,
run `updateStatus('opened')` and `$inc` the campaign's opened counter;
returns the (possibly updated) document, `none` when the lookup missed. -/
def trackEmailOpenSvc (st : Db) (tid : String) (now : Nat) : Db × Option EmailDoc :=
  match findEmailByTrackingId st.emails tid with
  | none => (st, none)
  | some email =>
      if email.status ≠ .opened then
        let email2 := updateStatusDoc email .opened now
        let st2 := saveEmail st email2
        let st3 := bumpCampaign st2 email.campaignId
          (fun a => { a with opened := a.opened + 1 })
        (st3, some email2)
      else (st, some email)

/-- Translation of `trackEmailClick` in src/services/campaign.service.js.
Note the order of operations taken from the code: `email.trackClick`
runs (and, for a valid link, sets the shared document's status to
`clicked`) BEFORE the `if (email.status !== 'clicked')` analytics guard
reads that same document's status. -/
def trackEmailClickSvc (st : Db) (tid : String) (linkIndex : Nat) (now : Nat) :
    Db × Option String :=
  match findEmailByTrackingId st.emails tid with
  | none => (st, none)
  | some email =>
      let email2 := trackClickDoc email linkIndex now
      let st2 := saveEmail st email2
      let st3 :=
        if email2.status ≠ .clicked then
          bumpCampaign st2 email2.campaignId
            (fun a => { a with clicked := a.clicked + 1 })
        else st2
      let url :=
        match email2.links.get? linkIndex with
        | some l => l.original
        | none => "/"
      (st3, some url)

/-- The composer's tracking identifier
`` `${campaign._id}-${event._id}-${Date.now()}` ``. -/
def composeTrackingId (campaignId eventId : String) (nowMs : Nat) : String :=
  campaignId ++ "-" ++ eventId ++ "-" ++ toString nowMs

/-- Translation of `scheduleEmail` in src/services/campaign.service.js,
restricted to the behavior the claims exercise: look the template up
(a miss is a thrown error caught by the caller), instrument HTML bodies
with a freshly composed trackingId, and persist the new email document —
whose `trackingId` field is NOT set by the composer, so the pre-save
hook fills it with the independently generated `genId`.  The variable
context and `renderTemplate` substitution are orthogonal to every claim
and are elided: the template body flows through unchanged. -/
def scheduleEmailSvc (st : Db) (c : CampaignDoc) (e : EventDoc) (uid : String)
    (scheduledTime : Nat) (trackingBaseUrl : String) (nowMs : Nat) (genId : String) :
    Except String EmailDoc :=
  match st.templates.find? (fun t => t.id = c.templateId) with
  | none => .error "Template not found"
  | some t =>
      let tr :=
        if t.isHtml then addTracking t.body (composeTrackingId c.id e.id nowMs) trackingBaseUrl
        else { html := t.body, links := [] }
      let email : EmailDoc :=
        { id := st.emails.length
          userId := uid
          campaignId := c.id
          eventId := e.id
          body := tr.html
          isHtml := t.isHtml
          templateId := t.id
          status := .scheduled
          scheduledFor := scheduledTime
          trackingId := none
          links := tr.links }
      .ok (presaveTrackingHook email genId)

/-- Insertion sort on `scheduledFor`, modelling the ascending sort of
the pending-email query. -/
def insertByScheduledFor (e : EmailDoc) : List EmailDoc → List EmailDoc
  | [] => [e]
  | x :: xs =>
      if e.scheduledFor ≤ x.scheduledFor then e :: x :: xs
      else x :: insertByScheduledFor e xs

/-- Sorting by `scheduledFor` ascending. -/
def sortByScheduledFor : List EmailDoc → List EmailDoc
  | [] => []
  | x :: xs => insertByScheduledFor x (sortByScheduledFor xs)

/-- Translation of `emailSchema.statics.findPendingEmails`: status
`scheduled`, due now, ascending by `scheduledFor`, capped at the limit. -/
def findPendingEmails (st : Db) (now : Nat) (limit : Nat) : List EmailDoc :=
  (sortByScheduledFor (st.emails.filter
    (fun e => e.status == .scheduled && e.scheduledFor ≤ now))).take limit

/-- The per-email body of `processScheduledEmails`, iterating over the
batch snapshot fetched up front.  The claim step is exactly the code's
`email.status = 'sending'; await email.save();` — an unconditional write
with no check that the stored document is still `scheduled`.  `sendOk`
models the transport outcome per email id.  Returns the store and the
count of successfully sent emails. -/
def workerLoop : List EmailDoc → Db → Nat → (Nat → Bool) → Db × Nat
  | [], st, _, _ => (st, 0)
  | email :: rest, st, now, sendOk =>
      let email2 := { email with status := .sending }
      let st2 := saveEmail st email2
      if sendOk email2.id then
        let email3 := { updateStatusDoc email2 .sent now with messageId := some "mid" }
        let st3 := saveEmail st2 email3
        let st4 := bumpCampaign st3 email3.campaignId
          (fun a => { a with sent := a.sent + 1 })
        let r := workerLoop rest st4 now sendOk
        (r.1, r.2 + 1)
      else
        let email3 := { updateStatusDoc email2 .failed now with errorMessage := some "send error" }
        let st3 := saveEmail st2 email3
        let st4 := bumpCampaign st3 email3.campaignId
          (fun a => { a with bounced := a.bounced + 1 })
        workerLoop rest st4 now sendOk

/-- Translation of `processScheduledEmails`: fetch the due batch, then
run the send loop over that snapshot. -/
def processScheduledEmails (st : Db) (now : Nat) (batchSize : Nat)
    (sendOk : Nat → Bool) : Db × Nat :=
  workerLoop (findPendingEmails st now batchSize) st now sendOk

/-- The event document as seen by `matchesConditions` (the code passes
the whole event object; condition paths in scope address `userId`,
`eventType` and `metadata`). -/
def eventJson (e : EventDoc) : JValue :=
  .jobj [("userId", .jstr e.userId), ("eventType", .jstr e.eventType),
    ("metadata", e.metadata)]

/-- Translation of the `isDateActive` virtual: now within
`[startDate, endDate-or-infinity]`. -/
def isDateActive (c : CampaignDoc) (now : Nat) : Bool :=
  decide (c.startDate ≤ now) &&
    (match c.endDate with | none => true | some d => decide (now ≤ d))

/-- Translation of `campaignSchema.methods.shouldSendToUser`. -/
def shouldSendToUser (c : CampaignDoc) (uid : String) : Bool :=
  if !c.audience.isEmpty && !(c.audience.contains uid) then false
  else if c.excludedAudience.contains uid then false
  else true

/-- Conjunction of the three per-campaign filters applied (as successive
`continue` guards) inside the `processEvent` loop. -/
def eligibleCampaign (c : CampaignDoc) (e : EventDoc) (now : Nat) : Bool :=
  isDateActive c now && shouldSendToUser c e.userId &&
    matchesConditions c.conditions (eventJson e)

/-- Translation of `eventSchema.methods.addTriggeredCampaign`: an
unconditional push of a new entry — the method never checks whether an
entry for this campaignId already exists. -/
def addTriggeredCampaign (e : EventDoc) (cid : String) (scheduledFor now : Nat) :
    EventDoc :=
  { e with triggeredCampaigns := e.triggeredCampaigns ++
      [{ campaignId := cid, processedAt := now, status := .scheduled,
         scheduledFor := scheduledFor }] }

/-- Observable steps of one matcher run, used to state failure-isolation
and finalization: an `attempt` is recorded when a campaign passes all
filters and enters the try block; `finalize` is the
`Event.findByIdAndUpdate(event._id, { processed: true })` write. -/
inductive MatcherOp where
  | attempt : String → MatcherOp
  | finalize : MatcherOp
deriving DecidableEq, BEq, Repr

/-- Recognizer for `attempt` trace entries. -/
def isAttemptOp : MatcherOp → Bool
  | .attempt _ => true
  | .finalize => false

/-- Result of one matcher run: updated store, updated event document,
the returned triggered-campaign id list, and the operation trace. -/
structure ProcResult where
  store : Db
  event : EventDoc
  triggered : List String
  trace : List MatcherOp

/-- The `for (const campaign of campaigns)` loop of `processEvent`.  A
campaign failing any filter is skipped.  For an eligible campaign the
code pushes it onto the returned list, awaits `addTriggeredCampaign`,
then awaits `scheduleEmail`; a throw inside the try block (modelled by
`schedFail`, or a missing template) is caught and logged, leaving the
already-pushed entries in place and the loop running. -/
def processEventLoop (now : Nat) (schedFail : String → Bool) (genId : String → String)
    (trackingBaseUrl : String) : List CampaignDoc → Db → EventDoc → ProcResult
  | [], st, ev => ⟨st, ev, [], []⟩
  | c :: rest, st, ev =>
      if eligibleCampaign c ev now then
        let schedTime := ev.timestamp + c.delay * 1000
        let ev2 := addTriggeredCampaign ev c.id schedTime now
        let st2 :=
          if schedFail c.id then st
          else
            match scheduleEmailSvc st c ev2 ev2.userId schedTime trackingBaseUrl
                now (genId c.id) with
            | .ok email => insertEmail st email
            | .error _ => st
        let r := processEventLoop now schedFail genId trackingBaseUrl rest st2 ev2
        ⟨r.store, r.event, c.id :: r.triggered, .attempt c.id :: r.trace⟩
      else processEventLoop now schedFail genId trackingBaseUrl rest st ev

/-- The candidate query of `processEvent`:
`Campaign.find({ triggerEvent, status: 'active' })`. -/
def candidateCampaigns (st : Db) (e : EventDoc) : List CampaignDoc :=
  st.campaigns.filter (fun c => c.triggerEvent == e.eventType && c.status == .active)

/-- Translation of `processEvent` in src/services/campaign.service.js:
fetch the active campaigns for the event type; with no candidates, or
with the event's user missing, mark the event processed and return;
otherwise run the campaign loop and mark the event processed exactly
once at the end. -/
def processEvent (st : Db) (e : EventDoc) (now : Nat) (schedFail : String → Bool)
    (genId : String → String) (trackingBaseUrl : String) : ProcResult :=
  let campaigns := candidateCampaigns st e
  if campaigns.isEmpty then
    ⟨st, { e with processed := true }, [], [.finalize]⟩
  else if st.users.contains e.userId then
    let r := processEventLoop now schedFail genId trackingBaseUrl campaigns st e
    ⟨r.store, { r.event with processed := true }, r.triggered, r.trace ++ [.finalize]⟩
  else
    ⟨st, { e with processed := true }, [], [.finalize]⟩

/-- HTTP responses a tracking endpoint can produce.  `errorPage` is
never constructed by the two tracking controllers; it exists so that
"never returns an error response" is a statement about this type rather
than a vacuity. -/
inductive HttpResponse where
  | pixelGif : HttpResponse
  | redirect : String → HttpResponse
  | errorPage : Nat → HttpResponse
deriving DecidableEq, Repr

/-- Translation of the open-tracking controller in
src/controllers/template.controller.js: the delivery update runs
detached (inside `setTimeout` with its own catch), and both the try and
the catch branch answer 200 with the fixed 1×1 transparent GIF, so the
response is the pixel regardless of the outcome. -/
def trackOpenEndpoint (outcome : Except String Unit) : HttpResponse :=
  match outcome with
  | .ok _ => .pixelGif
  | .error _ => .pixelGif

/-- Translation of the click-tracking controller: a service throw is
caught and answered with a redirect to `/`; a missing or falsy
(`null` / empty) resolved URL also redirects to `/`; otherwise the
response redirects to the resolved URL. -/
def trackClickEndpoint (outcome : Except String (Option String)) : HttpResponse :=
  match outcome with
  | .error _ => .redirect "/"
  | .ok none => .redirect "/"
  | .ok (some url) => if url = "" then .redirect "/" else .redirect url

/-- The open route end to end: fire the collector service and answer
with the pixel. -/
def trackOpenRoute (st : Db) (tid : String) (now : Nat) : Db × HttpResponse :=
  ((trackEmailOpenSvc st tid now).1, trackOpenEndpoint (.ok ()))

/-- The click route end to end: run the collector service and turn its
result into the response. -/
def trackClickRoute (st : Db) (tid : String) (linkIndex now : Nat) : Db × HttpResponse :=
  let r := trackEmailClickSvc st tid linkIndex now
  (r.1, trackClickEndpoint (.ok r.2))

/-- Redirect target as the spec words it ("to the resolved original URL,
or to a default destination on any resolution failure"): this definition
follows the spec, not the code, and exists to be compared with the
behavior of `trackClickRoute`. -/
def specClickTarget (st : Db) (tid : String) (linkIndex : Nat) : String :=
  match findEmailByTrackingId st.emails tid with
  | none => "/"
  | some e =>
      match e.links.get? linkIndex with
      | none => "/"
      | some l => l.original

/-- Number of `finalize` writes in a matcher trace (every trace entry is
either an `attempt` or a `finalize`). -/
def finalizeCount (t : List MatcherOp) : Nat :=
  (t.filter (fun o => !(isAttemptOp o))).length

/-- The `attempt` entries of a matcher trace, in order. -/
def attemptsOf (t : List MatcherOp) : List MatcherOp :=
  t.filter isAttemptOp

/-! Concrete scenario stores used by the evaluation theorems. -/

/-- Store for the composer round-trip scenario: one HTML template. -/
def c1Db : Db := { templates := [{ id := "tpl", body := "<p>hi</p>", isHtml := true }] }

/-- Campaign used in the composer round-trip scenario. -/
def c1Campaign : CampaignDoc := { id := "c1", templateId := "tpl" }

/-- Event used in the composer round-trip scenario. -/
def c1Event : EventDoc := { id := "e1" }

/-- The delivery `scheduleEmail` persists at clock 5 with pre-save
generator output "abc123". -/
def c1Email : EmailDoc :=
  (scheduleEmailSvc c1Db c1Campaign c1Event "u" 0 "b" 5 "abc123").toOption.getD
    { id := 999 }

/-- The sent delivery with one valid link used in the click-tracking
scenario. -/
def c2Email : EmailDoc :=
  { id := 0, campaignId := "c", status := .sent, trackingId := some "t",
    links := [{ original := "https://x.test", tracking := "b/track/click/t/0" }] }

/-- Store for the click-tracking scenario: one sent delivery with one
valid link and its owning campaign at zero clicks. -/
def c2Db : Db :=
  { emails := [c2Email], campaigns := [{ id := "c", status := .active }] }

/-- The due scheduled delivery of the worker double-send scenario. -/
def c3Email : EmailDoc :=
  { id := 0, campaignId := "c", status := .scheduled, scheduledFor := 0,
    trackingId := some "t" }

/-- Store for the worker double-send scenario: one due scheduled
delivery. -/
def c3Db : Db :=
  { emails := [c3Email], campaigns := [{ id := "c", status := .active }] }

/-- First worker's due-batch query, taken before any write. -/
def c3BatchA : List EmailDoc := findPendingEmails c3Db 5 10

/-- Second worker's due-batch query, also taken before any write (the
overlapping-runs interleaving of §5 of the spec). -/
def c3BatchB : List EmailDoc := findPendingEmails c3Db 5 10

/-- First worker's run over its snapshot. -/
def c3RunA : Db × Nat := workerLoop c3BatchA c3Db 5 (fun _ => true)

/-- Second worker's run over its stale snapshot, against the store the
first run left behind. -/
def c3RunB : Db × Nat := workerLoop c3BatchB c3RunA.1 5 (fun _ => true)

/-- HTML body with two anchors sharing one identical literal URL. -/
def c4Html : String := "<a href=\"https://x.test\">A</a><a href=\"https://x.test\">B</a>"

/-- Instrumentation of that body with trackingId "t" and base "b". -/
def c4Result : TrackedHtml := addTracking c4Html "t" "b"

/-- The active campaign on event type "purchase" of the
duplicate-trigger scenario. -/
def c6Campaign : CampaignDoc :=
  { id := "c", templateId := "tpl", triggerEvent := "purchase", status := .active }

/-- Store for the duplicate-trigger scenario. -/
def c6Db : Db :=
  { campaigns := [c6Campaign],
    templates := [{ id := "tpl", body := "<p>hi</p>", isHtml := true }],
    users := ["u"] }

/-- The unprocessed event driving the duplicate-trigger scenario. -/
def c6Event : EventDoc := { id := "e", userId := "u", eventType := "purchase" }

/-- First matcher run over the event. -/
def c6Run1 : ProcResult := processEvent c6Db c6Event 0 (fun _ => false) (fun _ => "g1") "b"

/-- Second matcher run over the same event (re-discovery before/without
effective finalization — `processEvent` itself never consults
`processed`). -/
def c6Run2 : ProcResult :=
  processEvent c6Run1.store c6Run1.event 0 (fun _ => false) (fun _ => "g2") "b"

/-- One-delivery store parameterized by the delivery's current status,
for the open-hit watermark theorems. -/
def openStoreAt (s : EStatus) : Db :=
  { emails := [{ id := 0, campaignId := "c", status := s, trackingId := some "t" }],
    campaigns := [{ id := "c", status := .active }] }

/-- The delivery with a valid link used by the endpoint witness. -/
def c9Email : EmailDoc :=
  { id := 0, campaignId := "c", status := .sent, trackingId := some "t",
    links := [{ original := "https://a.test", tracking := "b/track/click/t/0" }] }

/-- Store used by the endpoint witness: one delivery with a valid link. -/
def c9Db : Db :=
  { emails := [c9Email], campaigns := [{ id := "c", status := .active }] }

/-! Theorems settling the claims, preceded by sanity checks of the
embedding against the spec's worked examples (§8 of the spec). -/

example : matchesConditions [] (.jobj []) = true := by decide

example :
    matchesConditions [("metadata.productId", .op (some true) none none none)]
      (.jobj [("metadata", .jobj [("productId", .jstr "p1")])]) = true := by decide

example :
    matchesConditions [("metadata.productId", .op (some true) none none none)]
      (.jobj [("metadata", .jobj [])]) = false := by decide

example :
    matchesConditions [("metadata.price", .op none none (some 100) none)]
      (.jobj [("metadata", .jobj [("price", .jnum 150)])]) = true := by decide

example :
    matchesConditions [("metadata.price", .op none none (some 100) none)]
      (.jobj [("metadata", .jobj [("price", .jnum 50)])]) = false := by decide

example :
    extractAnchorUrls "<a href=\"https://a.test\">x</a><p><a class=\"z\" href=\"#frag\">y</a><a href=\"mailto:a@b.c\">m</a>"
      = ["https://a.test", "#frag", "mailto:a@b.c"] := by decide

example :
    (addTracking "<a href=\"https://a.test\">x</a>" "tid1" "http://base").links
      = [{ original := "https://a.test", tracking := "http://base/track/click/tid1/0" }] := by
  decide

example :
    (addTracking "<a href=\"https://a.test\">x</a>" "tid1" "http://base").html
      = "<a href=\"http://base/track/click/tid1/0\">x</a><img src=\"http://base/track/open/tid1\" width=\"1\" height=\"1\" alt=\"\" style=\"display:none;\" />" := by
  decide

/-- C1: the claim says the trackingId encoded in the persisted body's
pixel/click URLs equals the trackingId stored on the delivery, so an
open hit on the encoded id finds that delivery.  Evaluating the code at
a concrete composer run refutes this: the composer embeds
`campaignId-eventId-now` (here "c1-e1-5") in the body but never sets the
document's trackingId field, so the pre-save hook stores an unrelated
generated id ("abc123"); the lookup by the encoded id finds nothing and
an open hit on it updates nothing. -/
theorem C1_code_eval :
    (scheduleEmailSvc c1Db c1Campaign c1Event "u" 0 "b" 5 "abc123").isOk = true ∧
    composeTrackingId "c1" "e1" 5 = "c1-e1-5" ∧
    containsChars c1Email.body.data "c1-e1-5".data = true ∧
    c1Email.trackingId = some "abc123" ∧
    findEmailByTrackingId [c1Email] "c1-e1-5" = none ∧
    (trackEmailOpenSvc { c1Db with emails := [c1Email] } "c1-e1-5" 9).2 = none ∧
    (trackEmailOpenSvc { c1Db with emails := [c1Email] } "c1-e1-5" 9).1.emails
      = [c1Email] := by
  decide

/-- C2: the claim says the first click on a valid link transitions the
delivery to `clicked` AND increments the campaign's clicked counter by
exactly one.  Evaluating the code: the first click does set the status
and the link counter, but the campaign counter stays 0, because the
`email.status !== 'clicked'` guard reads the document AFTER `trackClick`
already set it to `clicked`.  Conversely a click with an out-of-range
link index (5) bumps the campaign counter without any link being
clicked. -/
theorem C2_code_eval :
    ((trackEmailClickSvc c2Db "t" 0 5).1.emails.map (fun e => e.status)) = [.clicked] ∧
    ((trackEmailClickSvc c2Db "t" 0 5).1.emails.map (fun e => e.links.map (fun l => l.clicks)))
      = [[1]] ∧
    campaignClicked (trackEmailClickSvc c2Db "t" 0 5).1 "c" = 0 ∧
    (trackEmailClickSvc c2Db "t" 0 5).2 = some "https://x.test" ∧
    campaignClicked (trackEmailClickSvc c2Db "t" 5 5).1 "c" = 1 ∧
    ((trackEmailClickSvc c2Db "t" 5 5).1.emails.map (fun e => e.status)) = [.sent] := by
  decide

/-- C3: the claim says the worker's scheduled→sending claim step is a
condition-checked update that succeeds only while the stored status is
still `scheduled`.  Evaluating the code at two overlapping worker runs
that both query the due batch before either writes: after run A the
stored item is `sent`, yet run B's unconditional
`email.status = 'sending'; save()` proceeds and the same delivery is
sent a second time (sent counter reaches 2). -/
theorem C3_code_eval :
    (c3BatchA.map (fun e => e.id)) = [0] ∧
    (c3BatchB.map (fun e => e.id)) = [0] ∧
    c3RunA.2 = 1 ∧
    (c3RunA.1.emails.map (fun e => e.status)) = [.sent] ∧
    c3RunB.2 = 1 ∧
    campaignSent c3RunB.1 "c" = 2 := by
  decide

/-- C4 counterexample: on a body with two anchors to the identical
literal URL, the claim says both collapse onto the same tracking index
and the registry gains one entry.  The code's registry gains TWO entries
with distinct tracking indices 0 and 1. -/
theorem C4_counterexample :
    ¬ (c4Result.links.length = 1) ∧
    (c4Result.links.map (fun l => l.tracking))
      = ["b/track/click/t/0", "b/track/click/t/1"] := by
  decide

/-- C4 amended: each of the two identical anchors is matched separately;
the non-global first-occurrence replacement rewrites the first anchor to
index 0 and the second to index 1, and the registry gains one entry per
anchor (same original URL, consecutive indices). -/
theorem C4_amended_eval :
    c4Result.html
      = "<a href=\"b/track/click/t/0\">A</a><a href=\"b/track/click/t/1\">B</a><img src=\"b/track/open/t\" width=\"1\" height=\"1\" alt=\"\" style=\"display:none;\" />" ∧
    c4Result.links
      = [{ original := "https://x.test", tracking := "b/track/click/t/0" },
         { original := "https://x.test", tracking := "b/track/click/t/1" }] := by
  decide

/-- C5 counterexample: the claim says `{exists: false}` on an
unresolvable path evaluates as a match.  On an event without
`metadata.productId` the code's path descent returns non-match before
the operator is ever consulted. -/
theorem C5_counterexample :
    matchesConditions [("metadata.productId", .op (some false) none none none)]
      (.jobj [("metadata", .jobj [("other", .jstr "x")])]) = false := by
  decide

/-- C6: the claim says at most one triggeredCampaigns entry per
campaignId and at most one delivery per (eventId, campaignId) survive
any sequence of matcher runs, including a double drive over the same
event.  Evaluating the code: the second run appends a second entry for
campaign "c" and persists a second email for ("e", "c") — nothing in
`processEvent` or `addTriggeredCampaign` deduplicates. -/
theorem C6_code_eval :
    (c6Run1.event.triggeredCampaigns.map (fun t => t.campaignId)) = ["c"] ∧
    c6Run1.event.processed = true ∧
    (c6Run2.event.triggeredCampaigns.map (fun t => t.campaignId)) = ["c", "c"] ∧
    ((c6Run2.store.emails.filter
        (fun m => m.eventId == "e" && m.campaignId == "c")).length) = 2 := by
  decide

/-- C8 counterexample: the claim says an open hit never moves a
delivery's status away from `clicked`.  On a delivery in `clicked` the
code's open hit (status ≠ `opened`) rewrites the status to `opened`,
lowering the watermark. -/
theorem C8_counterexample :
    ((trackEmailOpenSvc (openStoreAt .clicked) "t" 9).1.emails.map (fun e => e.status))
      = [.opened] ∧
    EStatus.opened ≠ EStatus.clicked := by
  decide

/-- C8 amended: an open hit transitions the delivery to `opened` from
every status other than `opened` itself — including from `clicked`,
lowering the watermark — stamping `openedAt` and incrementing the
campaign's opened counter by one; only a delivery already in `opened` is
left unchanged. -/
theorem C8_amended (s : EStatus) :
    (s ≠ .opened →
      ((trackEmailOpenSvc (openStoreAt s) "t" 9).1.emails.map (fun e => e.status))
          = [.opened] ∧
        ((trackEmailOpenSvc (openStoreAt s) "t" 9).1.emails.map (fun e => e.openedAt))
          = [some 9] ∧
        campaignOpened (trackEmailOpenSvc (openStoreAt s) "t" 9).1 "c" = 1) ∧
    (s = .opened →
      (trackEmailOpenSvc (openStoreAt s) "t" 9).1.emails = (openStoreAt s).emails ∧
        campaignOpened (trackEmailOpenSvc (openStoreAt s) "t" 9).1 "c" = 0) := by
  cases s <;> exact (by decide)

/-- C8 witness: the amended statement applied at the `clicked` status. -/
theorem C8_amended_witness :
    ((trackEmailOpenSvc (openStoreAt .clicked) "t" 9).1.emails.map (fun e => e.status))
        = [.opened] ∧
      ((trackEmailOpenSvc (openStoreAt .clicked) "t" 9).1.emails.map (fun e => e.openedAt))
        = [some 9] ∧
      campaignOpened (trackEmailOpenSvc (openStoreAt .clicked) "t" 9).1 "c" = 1 :=
  (C8_amended .clicked).1 (by decide)

/-! General lemmas about path resolution. -/

/-- Splitting a key path never yields an empty part list. -/
theorem splitPathAux_ne_nil : ∀ (cs acc : List Char), splitPathAux cs acc ≠ []
  | [], _ => by simp [splitPathAux]
  | c :: rest, acc => by
      simp only [splitPathAux]
      split
      · simp
      · exact splitPathAux_ne_nil rest _

/-- The `splitPath` of any key is nonempty. -/
theorem splitPath_ne_nil (key : String) : splitPath key ≠ [] :=
  splitPathAux_ne_nil key.data []

/-- A path that does not resolve structurally does not survive the
code's truthiness-filtering descent either. -/
theorem resolveKeyPath_none_of_loose_none :
    ∀ (parts : List String) (v : JValue),
      resolveKeyPathLoose v parts = none → resolveKeyPath v parts = none
  | [], _ => by simp [resolveKeyPathLoose]
  | p :: rest, v => by
      intro h
      simp only [resolveKeyPathLoose] at h
      by_cases ht : truthy v = false
      · simp [resolveKeyPath, ht]
      · cases hg : getField v p with
        | none => simp [resolveKeyPath, ht, hg]
        | some w =>
            simp only [hg] at h
            by_cases hw : truthy w = false
            · simp [resolveKeyPath, ht, hg, hw]
            · simp [resolveKeyPath, ht, hg, hw]
              exact resolveKeyPath_none_of_loose_none rest w h

/-- A nonempty path that structurally resolves to a falsy value is
rejected by the code's descent exactly like an absent path. -/
theorem resolveKeyPath_none_of_loose_falsy :
    ∀ (parts : List String) (v w : JValue),
      parts ≠ [] → resolveKeyPathLoose v parts = some w → truthy w = false →
      resolveKeyPath v parts = none
  | [], _, _ => by intro h; exact absurd rfl h
  | p :: rest, v, w => by
      intro _ hres hw
      simp only [resolveKeyPathLoose] at hres
      cases hg : getField v p with
      | none => simp [hg] at hres
      | some w1 =>
          simp only [hg] at hres
          by_cases ht : truthy v = false
          · simp [resolveKeyPath, ht]
          · by_cases hw1 : truthy w1 = false
            · simp [resolveKeyPath, ht, hg, hw1]
            · simp only [resolveKeyPath, ht, hg, hw1]
              cases rest with
              | nil =>
                  simp only [resolveKeyPathLoose, Option.some.injEq] at hres
                  rw [hres] at hw1
                  exact absurd hw hw1
              | cons r rs =>
                  exact resolveKeyPath_none_of_loose_falsy (r :: rs) w1 w
                    (by simp) hres hw

/-- Any single condition entry evaluates to non-match when the code's
descent fails. -/
theorem evalCondEntry_false_of_resolve_none (event : JValue) (key : String)
    (cond : CondSpec) (h : resolveKeyPath event (splitPath key) = none) :
    evalCondEntry event key cond = false := by
  simp [evalCondEntry, h]

/-- A singleton condition set matches exactly when its one entry does. -/
theorem matchesConditions_singleton (key : String) (cond : CondSpec) (event : JValue) :
    matchesConditions [(key, cond)] event = evalCondEntry event key cond := by
  simp [matchesConditions]

/-- C5 amended: for every condition entry on a dot-separated key path
that does not resolve in the event, evaluation returns non-match for
EVERY operator form — `exists:false` included (the descent rejects the
path before the operator is consulted) — and no error is raised
(evaluation is a total Boolean function). -/
theorem C5_missing_path_non_match (event : JValue) (key : String) (cond : CondSpec)
    (h : resolveKeyPathLoose event (splitPath key) = none) :
    matchesConditions [(key, cond)] event = false := by
  rw [matchesConditions_singleton]
  exact evalCondEntry_false_of_resolve_none event key cond
    (resolveKeyPath_none_of_loose_none _ _ h)

/-- C5 witness: the amended statement applied to an `equals` condition
on the unresolvable path `metadata.productId`. -/
theorem C5_missing_path_witness :
    matchesConditions [("metadata.productId", .op none (some (.jstr "p1")) none none)]
      (.jobj [("metadata", .jobj [("other", .jstr "x")])]) = false :=
  C5_missing_path_non_match _ _ _ (by rfl)

/-- C10: a condition whose key path structurally resolves to a falsy
leaf (the number 0, the empty string, or `false`) evaluates as a
non-match for every operator form, because the code's path descent
rejects falsy values exactly like an absent path. -/
theorem C10_falsy_path_non_match (event : JValue) (key : String) (cond : CondSpec)
    (v : JValue) (hres : resolveKeyPathLoose event (splitPath key) = some v)
    (hfalsy : truthy v = false) :
    matchesConditions [(key, cond)] event = false := by
  rw [matchesConditions_singleton]
  exact evalCondEntry_false_of_resolve_none event key cond
    (resolveKeyPath_none_of_loose_falsy _ _ _ (splitPath_ne_nil key) hres hfalsy)

/-- C10 witness: literal equality against the very value `0` stored at
`metadata.count` is still a non-match. -/
theorem C10_falsy_path_witness :
    matchesConditions [("metadata.count", .lit (.jnum 0))]
      (.jobj [("metadata", .jobj [("count", .jnum 0)])]) = false :=
  C10_falsy_path_non_match _ _ _ (.jnum 0) (by rfl) (by rfl)

/-! Lemmas for the matcher trace. -/

/-- Recording a triggered campaign on the event does not change any
field campaign eligibility reads. -/
theorem eligible_addTriggered (c : CampaignDoc) (ev : EventDoc) (cid : String)
    (s n now : Nat) :
    eligibleCampaign c (addTriggeredCampaign ev cid s n) now = eligibleCampaign c ev now :=
  rfl

/-- The campaign loop's trace is exactly one `attempt` per eligible
candidate, in order, independent of every scheduling failure. -/
theorem processEventLoop_trace (now : Nat) (schedFail : String → Bool)
    (genId : String → String) (burl : String) :
    ∀ (cs : List CampaignDoc) (st : Db) (ev : EventDoc),
      (processEventLoop now schedFail genId burl cs st ev).trace
        = (cs.filter (fun c => eligibleCampaign c ev now)).map
            (fun c => MatcherOp.attempt c.id)
  | [], _, _ => rfl
  | c :: cs, st, ev => by
      by_cases h : eligibleCampaign c ev now
      · simp only [processEventLoop, h, if_true, List.filter_cons, List.map_cons]
        exact congrArg (MatcherOp.attempt c.id :: ·)
          (processEventLoop_trace now schedFail genId burl cs _ _)
      · simp only [processEventLoop, h, if_false, List.filter_cons,
          Bool.false_eq_true]
        exact processEventLoop_trace now schedFail genId burl cs _ _

/-- A pure-attempt trace survives the attempt filter unchanged. -/
theorem attempts_filter_map {α : Type} (f : α → String) (l : List α) :
    (l.map (fun c => MatcherOp.attempt (f c))).filter isAttemptOp
      = l.map (fun c => MatcherOp.attempt (f c)) := by
  induction l with
  | nil => rfl
  | cons a l ih => simp [isAttemptOp, ih]

/-- A pure-attempt trace contains no finalize entries. -/
theorem finalize_filter_map {α : Type} (f : α → String) (l : List α) :
    (l.map (fun c => MatcherOp.attempt (f c))).filter (fun o => !(isAttemptOp o)) = [] := by
  induction l with
  | nil => rfl
  | cons a l ih => simp [isAttemptOp, ih]

/-- The matcher run's trace is the eligible attempts (when candidates
exist and the user is found) followed by exactly one finalize. -/
theorem processEvent_trace (st : Db) (e : EventDoc) (now : Nat)
    (schedFail : String → Bool) (genId : String → String) (burl : String) :
    (processEvent st e now schedFail genId burl).trace
      = (if !(candidateCampaigns st e).isEmpty && st.users.contains e.userId then
          ((candidateCampaigns st e).filter (fun c => eligibleCampaign c e now)).map
            (fun c => MatcherOp.attempt c.id)
         else []) ++ [MatcherOp.finalize] := by
  show (if (candidateCampaigns st e).isEmpty then _
        else if st.users.contains e.userId then _ else _ : ProcResult).trace = _
  cases hc : (candidateCampaigns st e).isEmpty with
  | true => simp [hc]
  | false =>
      cases hu : st.users.contains e.userId with
      | true => simp [hc, hu, processEventLoop_trace]
      | false => simp [hc, hu]

/-- The matcher run always leaves the event marked processed. -/
theorem processEvent_processed (st : Db) (e : EventDoc) (now : Nat)
    (schedFail : String → Bool) (genId : String → String) (burl : String) :
    (processEvent st e now schedFail genId burl).event.processed = true := by
  show (if (candidateCampaigns st e).isEmpty then _
        else if st.users.contains e.userId then _ else _ : ProcResult).event.processed = _
  cases hc : (candidateCampaigns st e).isEmpty with
  | true => simp [hc]
  | false =>
      cases hu : st.users.contains e.userId with
      | true => simp [hc, hu]
      | false => simp [hc, hu]

/-- C7: for every store, event and per-campaign failure pattern, the
matcher run records `processed = true`, writes the finalization exactly
once, and the attempted candidates are exactly the eligible candidates —
a failure scheduling one campaign never suppresses the attempts on the
remaining candidates nor the single finalization. -/
theorem C7_matcher_failure_isolation (st : Db) (e : EventDoc) (now : Nat)
    (schedFail : String → Bool) (genId : String → String) (burl : String) :
    finalizeCount (processEvent st e now schedFail genId burl).trace = 1 ∧
    attemptsOf (processEvent st e now schedFail genId burl).trace
      = (if !(candidateCampaigns st e).isEmpty && st.users.contains e.userId then
          ((candidateCampaigns st e).filter (fun c => eligibleCampaign c e now)).map
            (fun c => MatcherOp.attempt c.id)
         else []) ∧
    (processEvent st e now schedFail genId burl).event.processed = true := by
  refine ⟨?_, ?_, processEvent_processed st e now schedFail genId burl⟩
  · rw [finalizeCount, processEvent_trace, List.filter_append]
    cases hb : (!(candidateCampaigns st e).isEmpty && st.users.contains e.userId) with
    | true =>
        simp only [hb, if_true, ite_true]
        rw [finalize_filter_map (fun c : CampaignDoc => c.id)
          (List.filter (fun c => eligibleCampaign c e now) (candidateCampaigns st e))]
        simp [isAttemptOp]
    | false => simp [hb, isAttemptOp]
  · rw [attemptsOf, processEvent_trace, List.filter_append]
    cases hb : (!(candidateCampaigns st e).isEmpty && st.users.contains e.userId) with
    | true => simp [hb, attempts_filter_map, isAttemptOp]
    | false => simp [hb, isAttemptOp]

/-- C9: the tracking endpoints never answer with an error response: the
open endpoint returns the fixed pixel payload for every service outcome
(including a thrown error), the click endpoint returns a redirect for
every service outcome, and — for stores whose link registries hold the
nonempty URLs the instrumentor produces — the click route redirects
exactly to the spec's target: the resolved original URL, or `/` on any
resolution failure. -/
theorem C9_endpoints_never_error (openOutcome : Except String Unit)
    (clickOutcome : Except String (Option String)) (st : Db) (tid : String)
    (linkIndex now : Nat)
    (hlinks : ∀ m ∈ st.emails, ∀ l ∈ m.links, l.original ≠ "") :
    trackOpenEndpoint openOutcome = .pixelGif ∧
    (∃ u, trackClickEndpoint clickOutcome = .redirect u) ∧
    (trackOpenRoute st tid now).2 = .pixelGif ∧
    (trackClickRoute st tid linkIndex now).2
      = .redirect (specClickTarget st tid linkIndex) := by
  refine ⟨?_, ?_, rfl, ?_⟩
  · cases openOutcome <;> rfl
  · cases clickOutcome with
    | error _ => exact ⟨"/", rfl⟩
    | ok o =>
        cases o with
        | none => exact ⟨"/", rfl⟩
        | some u =>
            by_cases hu : u = ""
            · exact ⟨"/", by simp [trackClickEndpoint, hu]⟩
            · exact ⟨u, by simp [trackClickEndpoint, hu]⟩
  · unfold trackClickRoute trackEmailClickSvc specClickTarget
    cases hfind : findEmailByTrackingId st.emails tid with
    | none => simp [trackClickEndpoint]
    | some m =>
        have hfind2 : st.emails.find? (fun e => e.trackingId = some tid) = some m := hfind
        have hm : m ∈ st.emails := List.mem_of_find?_eq_some hfind2
        cases hget : m.links.get? linkIndex with
        | none =>
            rw [List.get?_eq_getElem?] at hget
            have hdoc : trackClickDoc m linkIndex now = m := by
              simp [trackClickDoc, List.get?_eq_getElem?, hget]
            simp [hdoc, hget, trackClickEndpoint]
        | some l =>
            have hne : l.original ≠ "" := hlinks m hm l (List.get?_mem hget)
            have hlt : linkIndex < m.links.length := by
              rw [List.get?_eq_getElem?] at hget
              exact (List.getElem?_eq_some.mp hget).1
            have hdoc : (trackClickDoc m linkIndex now).links.get? linkIndex
                = some { l with clicks := l.clicks + 1, lastClickedAt := some now } := by
              simp only [trackClickDoc, hget, updateStatusDoc, List.get?_eq_getElem?]
              exact List.getElem?_set_eq_of_lt _ hlt
            rw [List.get?_eq_getElem?] at hget hdoc
            simp [hdoc, hget, trackClickEndpoint, hne]

/-- C9 witness: the endpoint theorem applied at a concrete store with
one delivery owning one valid link. -/
theorem C9_endpoints_witness :
    (trackOpenRoute c9Db "t" 7).2 = .pixelGif ∧
    (trackClickRoute c9Db "t" 0 7).2 = .redirect (specClickTarget c9Db "t" 0) :=
  ⟨(C9_endpoints_never_error (.ok ()) (.ok none) c9Db "t" 0 7 (by decide)).2.2.1,
   (C9_endpoints_never_error (.ok ()) (.ok none) c9Db "t" 0 7 (by decide)).2.2.2⟩

end EmailCampaign








